import Mathlib

/-!
Shallow embedding of the Valerix order/inventory consistency protocol.

Source files embedded here:
- inventory deduct route (inventory-service, POST /internal/inventory/deduct):
  the idempotent deduction transaction over the products and
  inventory_operations tables;
- order-service/src/routes/orders.ts (POST /api/orders): the Order
  Coordinator, including the idempotency-key replay path and the
  INVENTORY_SERVICE_TIMEOUT branch;
- order-service/src/workers/undecided-resolver.ts (processRetryEvent);
- order-service/src/helpers/retry-events.ts (publishRetryEvent,
  consumeRetryEvents) over a Redis sorted set;
- order-service/src/helpers/order-status-events.ts (publishOrderStatusChange);
- the SSE route (GET /api/orders/:order_id/events), already-resolved
  short circuit;
- db-init/order-service.sql (orders.status CHECK constraint).

Databases are modelled as association lists keyed by id; each SQL statement
becomes a pure function on that state; each Redis command is one atomic
function; fallible external calls return Except.
-/

/-- Order status values written by the order service. -/
inductive Status
  | confirmed
  | failed
  | undecided
deriving DecidableEq, Repr

/-- One row of the inventory_operations table with operation_type = deduct,
keyed externally by order_id. -/
structure InvOp where
  productId : String
  quantityChange : Int
  previousStock : Nat
  newStock : Nat
deriving DecidableEq, Repr

/-- State of the inventory database: the products table (product_id to
stock_level) and the inventory_operations table restricted to deduct rows
(keyed by order_id, which the unique index makes a key). -/
structure InvState where
  products : List (String × Nat)
  ops : List (String × InvOp)
deriving DecidableEq, Repr

/-- Lookup by key in an association list: SELECT ... WHERE key = k. -/
def alookup {α : Type} : List (String × α) → String → Option α
  | [], _ => none
  | (k, v) :: rest, key => if k = key then some v else alookup rest key

/-- UPDATE products SET stock_level = n WHERE product_id = pid. -/
def setStock : List (String × Nat) → String → Nat → List (String × Nat)
  | [], _, _ => []
  | (k, v) :: rest, pid, n =>
    (if k = pid then (k, n) else (k, v)) :: setStock rest pid n

/-- Body of the HTTP 200 response of the deduct route. -/
structure DeductResponse where
  orderId : String
  productId : String
  quantityDeducted : Nat
  newStockLevel : Nat
deriving DecidableEq, Repr

/-- Outcome of the deduct route: 200 with a body, or one of the error
responses 400 / 404 / 409. -/
inductive DeductResult
  | ok (r : DeductResponse)
  | badRequest
  | notFound
  | insufficientStock
deriving DecidableEq, Repr

/-- Response body built from a stored inventory_operations row: the route
returns quantity_deducted = abs(quantity_change) and
new_stock_level = new_stock, both on fresh deductions (which re-read the
freshly inserted row) and on idempotent replays. -/
def mkDeductResponse (orderId : String) (op : InvOp) : DeductResponse :=
  { orderId := orderId
    productId := op.productId
    quantityDeducted := op.quantityChange.natAbs
    newStockLevel := op.newStock }

/-- The deduct transaction (POST /internal/inventory/deduct), executed as one
atomic unit of work: validate, replay-check on (order_id, deduct), read the
stock row under lock, reject on insufficient stock (aborting, so the state is
returned unchanged), else mutate stock and insert the operation row. -/
def deduct (s : InvState) (orderId productId : String) (quantity : Nat) :
    DeductResult × InvState :=
  if orderId = "" ∨ productId = "" ∨ quantity = 0 then
    (.badRequest, s)
  else
    match alookup s.ops orderId with
    | some op => (.ok (mkDeductResponse orderId op), s)
    | none =>
      match alookup s.products productId with
      | none => (.notFound, s)
      | some currentStock =>
        if currentStock < quantity then
          (.insufficientStock, s)
        else
          let newStock := currentStock - quantity
          let op : InvOp :=
            { productId := productId
              quantityChange := -(quantity : Int)
              previousStock := currentStock
              newStock := newStock }
          (.ok (mkDeductResponse orderId op),
           { products := setStock s.products productId newStock
             ops := (orderId, op) :: s.ops })

/-- n sequential calls of the deduct route with the same arguments,
collecting every response. -/
def deductN : Nat → InvState → String → String → Nat → List DeductResult × InvState
  | 0, s, _, _, _ => ([], s)
  | n + 1, s, o, p, q =>
    let first := deduct s o p q
    let rest := deductN n first.2 o p q
    (first.1 :: rest.1, rest.2)

/-- One row of the orders table, keyed externally by order_id. -/
structure OrderRow where
  productId : String
  quantity : Nat
  status : Status
  errorMessage : Option String
deriving DecidableEq, Repr

/-- The orders table of the order-service database. -/
abbrev OrdersDb := List (String × OrderRow)

/-- The CHECK constraint on orders.status in db-init/order-service.sql:
status IN (confirmed, failed). -/
def ordersStatusCheck (st : Status) : Bool :=
  decide (st = Status.confirmed ∨ st = Status.failed)

/-- The unguarded terminal-status write of the synchronous replay path in
orders.ts: UPDATE orders SET status = st, error_message = e
WHERE order_id = oid, with no condition on the current status. -/
def updateOrderStatus : OrdersDb → String → Status → Option String → OrdersDb
  | [], _, _, _ => []
  | (k, r) :: rest, oid, st, e =>
    (if k = oid then (k, { r with status := st, errorMessage := e }) else (k, r))
      :: updateOrderStatus rest oid st e

/-- The guarded terminal-status write of the Reconciliation Worker
(undecided-resolver.ts): UPDATE orders SET status = st, error_message = e
WHERE order_id = oid AND status = undecided. -/
def updateOrderStatusIfUndecided :
    OrdersDb → String → Status → Option String → OrdersDb
  | [], _, _, _ => []
  | (k, r) :: rest, oid, st, e =>
    (if k = oid ∧ r.status = .undecided then
       (k, { r with status := st, errorMessage := e })
     else (k, r))
      :: updateOrderStatusIfUndecided rest oid st e

/-- The error_message stored by the coordinator on an inventory timeout. -/
def timeoutMessage : String :=
  "Could not confirm inventory availability. Retry with the order ID."

/-- Outcome of GET /api/orders/:order_id/events: 404, an immediate JSON
answer for an already resolved order, or an opened SSE stream that waits for
a bus event. -/
inductive EventsResponse
  | notFound
  | immediate (st : Status) (message : String)
  | sseStream
deriving DecidableEq, Repr

/-- The SSE events route: SELECT the order; 404 when absent; when the status
is not undecided, answer immediately from the stored order state; otherwise
open the stream and subscribe to the notification bus. -/
def eventsGet (db : OrdersDb) (oid : String) : EventsResponse :=
  match alookup db oid with
  | none => .notFound
  | some r =>
    if ¬ r.status = .undecided then .immediate r.status "Order already resolved"
    else .sseStream

/-- A Reconciliation Task (retry event) as serialized into the delay queue. -/
structure RetryEvent where
  orderId : String
  productId : String
  quantity : Nat
  attempt : Nat
  maxAttempts : Nat
deriving DecidableEq, Repr

/-- One member of the Redis sorted set order:retry:queue: the score is the
scheduled_at timestamp in milliseconds. -/
structure ScoredTask where
  score : Nat
  event : RetryEvent
deriving DecidableEq, Repr

/-- The delay queue: the Redis sorted set order:retry:queue. -/
abbrev RetryQueue := List ScoredTask

/-- The Redis zAdd command; fails when the Redis connection is down. -/
def zAdd (redisUp : Bool) (q : RetryQueue) (t : ScoredTask) :
    Except String RetryQueue :=
  if redisUp then .ok (q ++ [t]) else .error "ECONNREFUSED"

/-- publishRetryEvent from retry-events.ts: the delay is
initialRetryDelayMs * 2 ^ attempt of the event being published, scheduled_at
is now + delay, and the task is zAdded with scheduled_at as score. Every
error is caught and only logged, so the function always returns normally; on
failure the queue is unchanged and the task is dropped. -/
def publishRetryEventEx (redisUp : Bool) (initialDelayMs now : Nat)
    (q : RetryQueue) (e : RetryEvent) : Except String RetryQueue :=
  match zAdd redisUp q ⟨now + initialDelayMs * 2 ^ e.attempt, e⟩ with
  | .ok q2 => .ok q2
  | .error _ => .ok q

/-- The Redis zRangeByScore command over scores 0..now: the ready entries. -/
def zRangeByScore (q : RetryQueue) (now : Nat) : List ScoredTask :=
  q.filter (fun t => decide (t.score ≤ now))

/-- The queue remaining after the Redis zRemRangeByScore command over scores
0..now. -/
def zRemRangeByScoreRemainder (q : RetryQueue) (now : Nat) : RetryQueue :=
  q.filter (fun t => decide (now < t.score))

/-- consumeRetryEvents from retry-events.ts: zRangeByScore retrieves the
ready entries, then a separate zRemRangeByScore removes them; failBetween
models the second command throwing, in which case the catch returns the empty
list and no removal happens. -/
def consumeRetryEvents (q : RetryQueue) (now : Nat) (failBetween : Bool) :
    List RetryEvent × RetryQueue :=
  let ready := zRangeByScore q now
  if failBetween then ([], q)
  else (ready.map ScoredTask.event, zRemRangeByScoreRemainder q now)

/-- An interleaving of two concurrent consumeRetryEvents calls (two worker
instances sharing the queue): each Redis command is individually atomic but
the retrieve-then-remove pair is not, so both zRangeByScore commands can
execute before either zRemRangeByScore. Both callers then receive the same
ready entries. -/
def twoWorkerDrain (q : RetryQueue) (now : Nat) :
    List RetryEvent × List RetryEvent × RetryQueue :=
  let readyA := zRangeByScore q now
  let readyB := zRangeByScore q now
  let q1 := zRemRangeByScoreRemainder q now
  let q2 := zRemRangeByScoreRemainder q1 now
  (readyA.map ScoredTask.event, readyB.map ScoredTask.event, q2)

/-- Whether a character list begins with a pattern. -/
def startsWithChars : List Char → List Char → Bool
  | _, [] => true
  | [], _ :: _ => false
  | c :: s, p :: ps => c = p && startsWithChars s ps

/-- Whether a character list contains a pattern as a contiguous segment. -/
def hasSubChars : List Char → List Char → Bool
  | [], pat => pat.isEmpty
  | c :: s, pat => startsWithChars (c :: s) pat || hasSubChars s pat

/-- Whether a string contains a pattern as a substring (String.includes). -/
def strHasSub (s pat : String) : Bool :=
  hasSubChars s.toList pat.toList

/-- The transient-error test of undecided-resolver.ts: the error message
includes timeout, network or ECONNREFUSED. -/
def isTransientError (msg : String) : Bool :=
  strHasSub msg "timeout" || strHasSub msg "network" || strHasSub msg "ECONNREFUSED"

/-- Outcome of verifyInventoryDeduction as seen by the worker: either the
deduct response was delivered, or a failure with an error message (an engine
rejection or a transport error such as a timeout). -/
inductive VerifyResult
  | success (r : DeductResponse)
  | failure (msg : String)
deriving DecidableEq, Repr

/-- The raw Redis publish command of the notification bus; fails when Redis
is down. -/
def redisBusPublish (busUp : Bool) (_channel _payload : String) :
    Except String Unit :=
  if busUp then .ok () else .error "Redis unavailable"

/-- publishOrderStatusChange from order-status-events.ts: publish the status
change on the per-order channel; a publish failure is caught and only logged,
never rethrown. The result lists the events that actually reached the bus. -/
def publishOrderStatusChange (busUp : Bool) (oid : String) (st : Status)
    (err : Option String) : List (String × Status × Option String) :=
  match redisBusPublish busUp ("order:status:" ++ oid) oid with
  | .ok _ => [(oid, st, err)]
  | .error _ => []

/-- Result of one processRetryEvent call: the orders table, the delay queue
and the bus events that were delivered. -/
structure WorkerStep where
  db : OrdersDb
  queue : RetryQueue
  bus : List (String × Status × Option String)
deriving DecidableEq, Repr

/-- processRetryEvent from undecided-resolver.ts: on verify success, the
guarded confirmed-update plus a bus publish; on a transient error with
attempts remaining, re-publish the task with attempt + 1 (through
publishRetryEvent, whose delay is initialDelayMs * 2 ^ new attempt) and leave
the orders table alone; otherwise the guarded failed-update with the error
message plus a bus publish. -/
def processRetryEvent (initialDelayMs now : Nat) (db : OrdersDb)
    (q : RetryQueue) (e : RetryEvent) (vr : VerifyResult)
    (redisUp busUp : Bool) : WorkerStep :=
  match vr with
  | .success _ =>
    { db := updateOrderStatusIfUndecided db e.orderId .confirmed none
      queue := q
      bus := publishOrderStatusChange busUp e.orderId .confirmed none }
  | .failure msg =>
    if isTransientError msg = true ∧ e.attempt < e.maxAttempts - 1 then
      { db := db
        queue :=
          match publishRetryEventEx redisUp initialDelayMs now q
              { e with attempt := e.attempt + 1 } with
          | .ok q2 => q2
          | .error _ => q
        bus := [] }
    else
      { db := updateOrderStatusIfUndecided db e.orderId .failed (some msg)
        queue := q
        bus := publishOrderStatusChange busUp e.orderId .failed (some msg) }

/-- Transport outcome of callInventoryDeduct under the bounded wait: the
engine response is delivered, or the wait expires (AbortError mapped to
INVENTORY_SERVICE_TIMEOUT); on a timeout the engine transaction may or may
not have committed server side, recorded in committedServerSide. -/
inductive Transport
  | delivered
  | timedOut (committedServerSide : Bool)
deriving DecidableEq, Repr

/-- The error message the coordinator stores for each definitive deduct
rejection, taken from the error body of the engine response. -/
def deductErrorMessage : DeductResult → String
  | .ok _ => ""
  | .badRequest => "Invalid input"
  | .notFound => "Product not found"
  | .insufficientStock => "Insufficient stock"

/-- Result of one POST /api/orders request: both databases, the HTTP status,
the response fields, the tasks added to the delay queue by this request and
the deduct calls issued to the inventory service. -/
structure PlaceOrderResult where
  db : OrdersDb
  inv : InvState
  httpStatus : Nat
  respOrderId : Option String
  respStatus : Option Status
  enqueued : List ScoredTask
  deductCalls : List (String × String × Nat)
deriving DecidableEq, Repr

/-- The fresh-order path of orders.post, entered when no idempotency key is
given or no order with that id exists: generate freshId, call the deduct
engine under the bounded wait, then persist confirmed / failed / undecided
according to the outcome. The INVENTORY_SERVICE_TIMEOUT branch INSERTs the
undecided row and returns 503; it contains no publishRetryEvent call, so
enqueued is empty there. -/
def placeOrderFresh (db : OrdersDb) (inv : InvState) (freshId productId : String)
    (quantity : Nat) (tr : Transport) : PlaceOrderResult :=
  match tr with
  | .timedOut committed =>
    { db := (freshId,
        { productId := productId, quantity := quantity, status := .undecided
          errorMessage := some timeoutMessage }) :: db
      inv := if committed then (deduct inv freshId productId quantity).2 else inv
      httpStatus := 503
      respOrderId := some freshId
      respStatus := some .undecided
      enqueued := []
      deductCalls := [(freshId, productId, quantity)] }
  | .delivered =>
    match deduct inv freshId productId quantity with
    | (.ok _, inv2) =>
      { db := (freshId,
          { productId := productId, quantity := quantity, status := .confirmed
            errorMessage := none }) :: db
        inv := inv2
        httpStatus := 200
        respOrderId := some freshId
        respStatus := some .confirmed
        enqueued := []
        deductCalls := [(freshId, productId, quantity)] }
    | (e, inv2) =>
      { db := (freshId,
          { productId := productId, quantity := quantity, status := .failed
            errorMessage := some (deductErrorMessage e) }) :: db
        inv := inv2
        httpStatus := 200
        respOrderId := some freshId
        respStatus := some .failed
        enqueued := []
        deductCalls := [(freshId, productId, quantity)] }

/-- orders.post: validate; when an idempotency key is supplied, look the
order up by that id; an existing undecided order is resolved synchronously
through a verify (idempotent deduct) call and an unguarded UPDATE, an
existing terminal order is returned verbatim; when no order with the key
exists the request falls through to the fresh path, where the caller-supplied
key plays no further part. -/
def placeOrder (db : OrdersDb) (inv : InvState) (idemKey : Option String)
    (freshId productId : String) (quantity : Nat) (tr : Transport) :
    PlaceOrderResult :=
  if productId = "" ∨ quantity = 0 then
    { db := db, inv := inv, httpStatus := 400, respOrderId := none
      respStatus := none, enqueued := [], deductCalls := [] }
  else
    match idemKey with
    | some k =>
      match alookup db k with
      | some row =>
        if row.status = .undecided then
          match deduct inv k row.productId row.quantity with
          | (.ok _, inv2) =>
            { db := updateOrderStatus db k .confirmed none
              inv := inv2, httpStatus := 200, respOrderId := some k
              respStatus := some .confirmed, enqueued := []
              deductCalls := [(k, row.productId, row.quantity)] }
          | (e, inv2) =>
            { db := updateOrderStatus db k .failed (some (deductErrorMessage e))
              inv := inv2, httpStatus := 200, respOrderId := some k
              respStatus := some .failed, enqueued := []
              deductCalls := [(k, row.productId, row.quantity)] }
        else
          { db := db, inv := inv, httpStatus := 200, respOrderId := some k
            respStatus := some row.status, enqueued := [], deductCalls := [] }
      | none => placeOrderFresh db inv freshId productId quantity tr
    | none => placeOrderFresh db inv freshId productId quantity tr

theorem deduct_ok_replay (s : InvState) (o p : String) (q : Nat)
    (r : DeductResponse) (s₁ : InvState) (h : deduct s o p q = (.ok r, s₁)) :
    deduct s₁ o p q = (.ok r, s₁) := by
  unfold deduct at h ⊢
  by_cases hval : o = "" ∨ p = "" ∨ q = 0
  · simp [hval] at h
  · simp only [hval, if_false] at h ⊢
    cases hop : alookup s.ops o with
    | some op =>
      simp only [hop] at h
      obtain ⟨hr, hs⟩ := Prod.mk.injEq .. ▸ h
      cases hr
      cases hs
      simp [hop]
    | none =>
      simp only [hop] at h
      cases hp : alookup s.products p with
      | none => simp [hp] at h
      | some currentStock =>
        simp only [hp] at h
        by_cases hlt : currentStock < q
        · simp [hlt] at h
        · simp only [hlt, if_false] at h
          obtain ⟨hr, hs⟩ := Prod.mk.injEq .. ▸ h
          cases hr
          cases hs
          simp [alookup]

theorem deductN_fix (s : InvState) (o p : String) (q : Nat) (r : DeductResponse)
    (h : deduct s o p q = (.ok r, s)) :
    ∀ m, deductN m s o p q = (List.replicate m (.ok r), s) := by
  intro m
  induction m with
  | zero => simp [deductN]
  | succ m ih => simp [deductN, h, ih, List.replicate_succ]

/-- Claim C1: for any order_id, invoking Deduct N times (N at least 1) with
the same (order_id, product_id, quantity) causes exactly one stock mutation
on the product and every one of the N calls returns the identical recorded
result: replays find the existing inventory_operations row for
(order_id, deduct) and return it instead of deducting again. Concurrent
invocations serialize as the deduct transactions are atomic units of work. -/
theorem C1_deduct_at_most_once (s : InvState) (o p : String) (q n : Nat)
    (r : DeductResponse) (s₁ : InvState)
    (hn : 1 ≤ n) (hop : alookup s.ops o = none)
    (h : deduct s o p q = (.ok r, s₁)) :
    deductN n s o p q = (List.replicate n (.ok r), s₁)
    ∧ ∃ st, alookup s.products p = some st ∧ q ≤ st
        ∧ r = ⟨o, p, q, st - q⟩
        ∧ s₁.products = setStock s.products p (st - q)
        ∧ s₁.ops = (o, ⟨p, -(q : Int), st, st - q⟩) :: s.ops := by
  have hrep := deduct_ok_replay s o p q r s₁ h
  constructor
  · obtain ⟨m, rfl⟩ : ∃ m, n = m + 1 :=
      ⟨n - 1, (Nat.succ_pred_eq_of_pos hn).symm⟩
    simp [deductN, h, deductN_fix s₁ o p q r hrep m, List.replicate_succ]
  · unfold deduct at h
    by_cases hval : o = "" ∨ p = "" ∨ q = 0
    · simp [hval] at h
    · simp only [hval, if_false] at h
      rw [hop] at h
      cases hp : alookup s.products p with
      | none => rw [hp] at h; simp at h
      | some currentStock =>
        rw [hp] at h
        by_cases hlt : currentStock < q
        · simp [hlt] at h
        · simp only [hlt, if_false] at h
          obtain ⟨hr, hs⟩ := Prod.mk.injEq .. ▸ h
          cases hr
          refine ⟨currentStock, rfl, Nat.not_lt.mp hlt, ?_, ?_, ?_⟩
          · simp [mkDeductResponse]
          · rw [← hs]
          · rw [← hs]

/-- Witness for C1 at a concrete state: product PROD-001 with stock 10,
two sequential Deduct calls for order ORD-A with quantity 3. -/
theorem C1_deduct_at_most_once_witness :
    (1 : Nat) ≤ 2
    ∧ alookup (InvState.mk [("PROD-001", 10)] []).ops "ORD-A" = none
    ∧ deduct (InvState.mk [("PROD-001", 10)] []) "ORD-A" "PROD-001" 3
      = (.ok ⟨"ORD-A", "PROD-001", 3, 7⟩,
         InvState.mk [("PROD-001", 7)] [("ORD-A", ⟨"PROD-001", -3, 10, 7⟩)])
    ∧ deductN 2 (InvState.mk [("PROD-001", 10)] []) "ORD-A" "PROD-001" 3
      = (List.replicate 2 (DeductResult.ok ⟨"ORD-A", "PROD-001", 3, 7⟩),
         InvState.mk [("PROD-001", 7)] [("ORD-A", ⟨"PROD-001", -3, 10, 7⟩)]) :=
  ⟨by decide, by decide, by decide,
   (C1_deduct_at_most_once (InvState.mk [("PROD-001", 10)] []) "ORD-A" "PROD-001"
      3 2 ⟨"ORD-A", "PROD-001", 3, 7⟩
      (InvState.mk [("PROD-001", 7)] [("ORD-A", ⟨"PROD-001", -3, 10, 7⟩)])
      (by decide) (by decide) (by decide)).1⟩

/-- Claim C4: when the product exists but stock_level < quantity, the deduct
transaction aborts with InsufficientStock (HTTP 409), the state is returned
unchanged (no inventory_operations row written, stock untouched), and a later
deduction on the same product with a fresh order_id and a satisfiable
quantity still succeeds. -/
theorem C4_insufficient_stock_aborts (s : InvState) (o p : String) (q st : Nat)
    (hop : alookup s.ops o = none)
    (hp : alookup s.products p = some st)
    (hlt : st < q)
    (ho : ¬ o = "") (hpne : ¬ p = "") (hq : ¬ q = 0) :
    deduct s o p q = (.insufficientStock, s)
    ∧ ∀ o₂ q₂, ¬ o₂ = "" → alookup s.ops o₂ = none → ¬ q₂ = 0 → q₂ ≤ st →
        (deduct s o₂ p q₂).1 =
          .ok { orderId := o₂, productId := p
                quantityDeducted := q₂, newStockLevel := st - q₂ } := by
  constructor
  · unfold deduct
    simp [ho, hpne, hq, hop, hp, hlt]
  · intro o₂ q₂ ho₂ hop₂ hq₂ hle
    unfold deduct
    simp [ho₂, hpne, hq₂, hop₂, hp, Nat.not_lt.mpr hle, mkDeductResponse]

/-- Witness for C4: stock 1, requested quantity 5 is rejected with the state
unchanged, and a fresh order for quantity 1 on the same product succeeds. -/
theorem C4_insufficient_stock_aborts_witness :
    deduct (InvState.mk [("PROD-002", 1)] []) "ORD-C" "PROD-002" 5
      = (.insufficientStock, InvState.mk [("PROD-002", 1)] [])
    ∧ (deduct (InvState.mk [("PROD-002", 1)] []) "ORD-D" "PROD-002" 1).1
      = .ok ⟨"ORD-D", "PROD-002", 1, 0⟩ :=
  ⟨(C4_insufficient_stock_aborts (InvState.mk [("PROD-002", 1)] []) "ORD-C"
      "PROD-002" 5 1 (by decide) (by decide) (by decide) (by decide) (by decide)
      (by decide)).1,
   (C4_insufficient_stock_aborts (InvState.mk [("PROD-002", 1)] []) "ORD-C"
      "PROD-002" 5 1 (by decide) (by decide) (by decide) (by decide) (by decide)
      (by decide)).2 "ORD-D" 1 (by decide) (by decide) (by decide) (by decide)⟩

theorem alookup_updateOrderStatusIfUndecided_hit (db : OrdersDb) (oid : String)
    (st : Status) (e : Option String) (row : OrderRow)
    (hrow : alookup db oid = some row) (hund : row.status = .undecided) :
    alookup (updateOrderStatusIfUndecided db oid st e) oid
      = some { row with status := st, errorMessage := e } := by
  induction db with
  | nil => simp [alookup] at hrow
  | cons kv rest ih =>
    obtain ⟨k, r⟩ := kv
    by_cases hk : k = oid
    · subst hk
      rw [alookup, if_pos rfl] at hrow
      cases hrow
      simp only [updateOrderStatusIfUndecided]
      rw [if_pos ⟨trivial, hund⟩]
      simp [alookup]
    · rw [alookup, if_neg hk] at hrow
      simp only [updateOrderStatusIfUndecided]
      rw [if_neg (by intro hc; exact hk hc.1)]
      rw [alookup, if_neg hk]
      exact ih hrow

/-- Claim C2, evaluated on the code at a failing interleaving. The replay
path of orders.ts first SELECTs the order and checks status = undecided, but
its two terminal-state UPDATEs carry no status guard. Interleaving with the
worker: (1) the replay handler reads order ORD-B and sees undecided; (2) the
worker resolution commits its guarded update, making the status confirmed
(terminal); (3) the replay handler, whose verify call failed, commits its
unguarded failed-update, rewriting the terminal status. -/
theorem C2_terminal_status_rewritten :
    (alookup
        [("ORD-B", OrderRow.mk "PROD-001" 2 .undecided (some timeoutMessage))]
        "ORD-B").map OrderRow.status = some .undecided
    ∧ (alookup
        (updateOrderStatusIfUndecided
          [("ORD-B", OrderRow.mk "PROD-001" 2 .undecided (some timeoutMessage))]
          "ORD-B" .confirmed none)
        "ORD-B").map OrderRow.status = some .confirmed
    ∧ (alookup
        (updateOrderStatus
          (updateOrderStatusIfUndecided
            [("ORD-B", OrderRow.mk "PROD-001" 2 .undecided (some timeoutMessage))]
            "ORD-B" .confirmed none)
          "ORD-B" .failed (some "Insufficient stock"))
        "ORD-B").map OrderRow.status = some .failed := by
  decide

/-- Claim C7: a listener subscription for an order whose status is already
confirmed or failed at subscription time returns immediately with the stored
terminal status instead of opening a stream. -/
theorem C7_already_resolved_immediate (db : OrdersDb) (oid : String)
    (row : OrderRow) (hrow : alookup db oid = some row)
    (hterm : row.status = .confirmed ∨ row.status = .failed) :
    eventsGet db oid = .immediate row.status "Order already resolved" := by
  unfold eventsGet
  rw [hrow]
  have hne : ¬ row.status = .undecided := by
    rcases hterm with h | h <;> simp [h]
  simp [hne]

/-- Witness for C7: a confirmed order answers immediately. -/
theorem C7_already_resolved_immediate_witness :
    alookup [("ORD-E", OrderRow.mk "PROD-001" 1 .confirmed none)] "ORD-E"
      = some (OrderRow.mk "PROD-001" 1 .confirmed none)
    ∧ eventsGet [("ORD-E", OrderRow.mk "PROD-001" 1 .confirmed none)] "ORD-E"
      = .immediate .confirmed "Order already resolved" :=
  ⟨by decide,
   C7_already_resolved_immediate
     [("ORD-E", OrderRow.mk "PROD-001" 1 .confirmed none)] "ORD-E"
     (OrderRow.mk "PROD-001" 1 .confirmed none) (by decide) (Or.inl (by decide))⟩

/-- Claim C10: publishRetryEvent never throws. For every input it returns
normally (Except.ok); when Redis is down the error is swallowed and the queue
is unchanged, silently dropping the task; when Redis is up the task is added
with score now + initialDelayMs * 2 ^ attempt. -/
theorem C10_publishRetryEvent_never_throws :
    ∀ (redisUp : Bool) (initialDelayMs now : Nat) (q : RetryQueue)
      (e : RetryEvent),
      (∃ q2, publishRetryEventEx redisUp initialDelayMs now q e = .ok q2)
      ∧ publishRetryEventEx false initialDelayMs now q e = .ok q
      ∧ publishRetryEventEx true initialDelayMs now q e
          = .ok (q ++ [⟨now + initialDelayMs * 2 ^ e.attempt, e⟩]) := by
  intro redisUp initialDelayMs now q e
  refine ⟨?_, ?_, ?_⟩
  · cases redisUp <;> simp [publishRetryEventEx, zAdd]
  · simp [publishRetryEventEx, zAdd]
  · simp [publishRetryEventEx, zAdd]

/-- Claim C6, evaluated on the code at a failing interleaving: a queue with
one ready task (score 100, drained at now = 200) drained concurrently by two
worker instances hands the same task to both callers, because retrieval and
removal are two separate Redis commands rather than one atomic step. A single
sequential drain does return and remove exactly the ready set. -/
theorem C6_drain_not_atomic :
    twoWorkerDrain [⟨100, ⟨"ORD-B", "PROD-001", 2, 0, 5⟩⟩] 200
      = ([⟨"ORD-B", "PROD-001", 2, 0, 5⟩], [⟨"ORD-B", "PROD-001", 2, 0, 5⟩], [])
    ∧ consumeRetryEvents [⟨100, ⟨"ORD-B", "PROD-001", 2, 0, 5⟩⟩] 200 false
      = ([⟨"ORD-B", "PROD-001", 2, 0, 5⟩], []) := by
  decide

/-- Counterexample to claim C5 as stated: processing a transient failure of
the task at attempt 0 (max 5, initial delay 5000, now 0) re-enqueues the task
with attempt 1 but with an eligibility delay of 10000
= initial_delay * 2 ^ (attempt + 1), not initial_delay * 2 ^ attempt = 5000
as the claim states: publishRetryEvent computes the delay from the attempt
field of the event it publishes, which is already incremented. -/
theorem C5_delay_counterexample :
    (processRetryEvent 5000 0 [] [] ⟨"ORD-B", "PROD-001", 2, 0, 5⟩
        (.failure "timeout") true true).queue
      = [⟨10000, ⟨"ORD-B", "PROD-001", 2, 1, 5⟩⟩]
    ∧ ¬ (10000 : Nat) = 0 + 5000 * 2 ^ (0 : Nat) := by
  decide

/-- Claim C5 as amended: on a transient verify failure with
attempt < max_attempts - 1 the task is re-enqueued with attempt + 1 and an
eligibility delay of initial_delay * 2 ^ (attempt + 1), leaving the orders
table unchanged; at attempt = max_attempts - 1 the order is instead marked
failed with the error message (guarded on still-undecided) and a
status-change event is published. -/
theorem C5_transient_backoff (initialDelayMs now : Nat) (db : OrdersDb)
    (q : RetryQueue) (e : RetryEvent) (msg : String)
    (htr : isTransientError msg = true) :
    (e.attempt < e.maxAttempts - 1 →
      processRetryEvent initialDelayMs now db q e (.failure msg) true true
        = ⟨db,
           q ++ [⟨now + initialDelayMs * 2 ^ (e.attempt + 1),
                  { e with attempt := e.attempt + 1 }⟩],
           []⟩)
    ∧ (e.attempt = e.maxAttempts - 1 →
      processRetryEvent initialDelayMs now db q e (.failure msg) true true
        = ⟨updateOrderStatusIfUndecided db e.orderId .failed (some msg), q,
           [(e.orderId, .failed, some msg)]⟩) := by
  constructor
  · intro hlt
    simp [processRetryEvent, htr, hlt, publishRetryEventEx, zAdd]
  · intro heq
    have hnlt : ¬ e.attempt < e.maxAttempts - 1 := by
      rw [heq]
      exact Nat.lt_irrefl _
    simp [processRetryEvent, hnlt, publishOrderStatusChange, redisBusPublish]

/-- Witness for the amended C5: attempt 1 of 5 re-enqueues with attempt 2 and
delay 20000; attempt 4 of 5 marks the undecided order failed and publishes. -/
theorem C5_transient_backoff_witness :
    isTransientError "timeout" = true
    ∧ processRetryEvent 5000 0 [] [] ⟨"ORD-B", "PROD-001", 2, 1, 5⟩
        (.failure "timeout") true true
      = ⟨[], [⟨20000, ⟨"ORD-B", "PROD-001", 2, 2, 5⟩⟩], []⟩
    ∧ processRetryEvent 5000 0
        [("ORD-B", OrderRow.mk "PROD-001" 2 .undecided (some timeoutMessage))]
        [] ⟨"ORD-B", "PROD-001", 2, 4, 5⟩ (.failure "timeout") true true
      = ⟨[("ORD-B", OrderRow.mk "PROD-001" 2 .failed (some "timeout"))], [],
         [("ORD-B", .failed, some "timeout")]⟩ :=
  ⟨by decide,
   ((C5_transient_backoff 5000 0 [] [] ⟨"ORD-B", "PROD-001", 2, 1, 5⟩ "timeout"
        (by decide)).1 (by decide)).trans (by decide),
   ((C5_transient_backoff 5000 0
        [("ORD-B", OrderRow.mk "PROD-001" 2 .undecided (some timeoutMessage))]
        [] ⟨"ORD-B", "PROD-001", 2, 4, 5⟩ "timeout"
        (by decide)).2 (by decide)).trans (by decide)⟩

/-- Claim C8: a failure of the Status Notification Bus never fails the worker
operation nor rolls back the order-status update: the orders table and queue
produced by processRetryEvent are independent of the bus being up, and on the
success path with the bus down the order row still ends confirmed. -/
theorem C8_publish_failure_never_rolls_back (initialDelayMs now : Nat)
    (db : OrdersDb) (q : RetryQueue) (e : RetryEvent) (vr : VerifyResult)
    (redisUp : Bool) (row : OrderRow) (r2 : DeductResponse)
    (hrow : alookup db e.orderId = some row)
    (hund : row.status = .undecided) :
    (∀ busUp,
      (processRetryEvent initialDelayMs now db q e vr redisUp busUp).db
        = (processRetryEvent initialDelayMs now db q e vr redisUp true).db
      ∧ (processRetryEvent initialDelayMs now db q e vr redisUp busUp).queue
        = (processRetryEvent initialDelayMs now db q e vr redisUp true).queue)
    ∧ alookup (processRetryEvent initialDelayMs now db q e
          (.success r2) redisUp false).db e.orderId
        = some { row with status := .confirmed, errorMessage := none } := by
  constructor
  · intro busUp
    cases vr with
    | success r => exact ⟨rfl, rfl⟩
    | failure msg =>
      by_cases hc : isTransientError msg = true ∧ e.attempt < e.maxAttempts - 1
      · simp [processRetryEvent, hc]
      · simp [processRetryEvent, hc]
  · exact alookup_updateOrderStatusIfUndecided_hit db e.orderId .confirmed none
      row hrow hund

/-- Witness for C8: with the bus down, the worker still confirms the
undecided order ORD-B. -/
theorem C8_publish_failure_never_rolls_back_witness :
    alookup [("ORD-B", OrderRow.mk "PROD-001" 2 .undecided (some timeoutMessage))]
        "ORD-B"
      = some (OrderRow.mk "PROD-001" 2 .undecided (some timeoutMessage))
    ∧ alookup (processRetryEvent 5000 0
          [("ORD-B", OrderRow.mk "PROD-001" 2 .undecided (some timeoutMessage))]
          [] ⟨"ORD-B", "PROD-001", 2, 0, 5⟩
          (.success ⟨"ORD-B", "PROD-001", 2, 8⟩) true false).db "ORD-B"
      = some (OrderRow.mk "PROD-001" 2 .confirmed none) :=
  ⟨by decide,
   (C8_publish_failure_never_rolls_back 5000 0
      [("ORD-B", OrderRow.mk "PROD-001" 2 .undecided (some timeoutMessage))]
      [] ⟨"ORD-B", "PROD-001", 2, 0, 5⟩
      (.success ⟨"ORD-B", "PROD-001", 2, 8⟩) true
      (OrderRow.mk "PROD-001" 2 .undecided (some timeoutMessage))
      ⟨"ORD-B", "PROD-001", 2, 8⟩ (by decide) (by decide)).2⟩

/-- Claim C3, evaluated on the code at the failing input: a PlaceOrder whose
bounded wait expires (engine committed server side) persists the order as
undecided and returns 503, but the enqueued task list is empty: the timeout
branch of orders.post never calls publishRetryEvent, so no Reconciliation
Task at attempt 0 ever enters the delay queue. Moreover the undecided row
violates the orders.status CHECK constraint of db-init/order-service.sql,
which only admits confirmed and failed. -/
theorem C3_timeout_branch_enqueues_nothing :
    (placeOrder [] (InvState.mk [("PROD-001", 100)] []) none "ORD-7" "PROD-001"
        1 (.timedOut true)).httpStatus = 503
    ∧ (placeOrder [] (InvState.mk [("PROD-001", 100)] []) none "ORD-7" "PROD-001"
        1 (.timedOut true)).respStatus = some .undecided
    ∧ alookup (placeOrder [] (InvState.mk [("PROD-001", 100)] []) none "ORD-7"
        "PROD-001" 1 (.timedOut true)).db "ORD-7"
      = some (OrderRow.mk "PROD-001" 1 .undecided (some timeoutMessage))
    ∧ (placeOrder [] (InvState.mk [("PROD-001", 100)] []) none "ORD-7" "PROD-001"
        1 (.timedOut true)).enqueued = []
    ∧ ordersStatusCheck .undecided = false := by
  decide

theorem alookup_setStock (ps : List (String × Nat)) (pid : String) (st n : Nat)
    (h : alookup ps pid = some st) :
    alookup (setStock ps pid n) pid = some n := by
  induction ps with
  | nil => simp [alookup] at h
  | cons kv rest ih =>
    obtain ⟨k0, v0⟩ := kv
    by_cases hk0 : k0 = pid
    · subst hk0
      have h1 : setStock ((k0, v0) :: rest) k0 n = (k0, n) :: setStock rest k0 n := by
        simp [setStock]
      rw [h1]
      simp [alookup]
    · simp only [setStock]
      rw [if_neg hk0]
      simp only [alookup] at h ⊢
      rw [if_neg hk0] at h ⊢
      exact ih h

/-- Claim C9: when the supplied idempotency_key matches no existing order,
the key is ignored: the deduct call and the inserted order row both use the
freshly generated order id, the key never becomes an order identity, and the
earlier deduction recorded under the key (from a lost attempt that never
persisted its order row) stays in place while the stock is deducted a second
time under the new id. -/
theorem C9_unknown_key_ignored (db : OrdersDb) (inv : InvState)
    (k freshId pid : String) (qty st : Nat) (opK : InvOp)
    (hmiss : alookup db k = none) (hneq : ¬ freshId = k)
    (hfresh : alookup inv.ops freshId = none)
    (hprev : alookup inv.ops k = some opK)
    (hstock : alookup inv.products pid = some st)
    (hq : ¬ qty = 0) (hle : qty ≤ st) (hpid : ¬ pid = "")
    (hfid : ¬ freshId = "") :
    (placeOrder db inv (some k) freshId pid qty .delivered).deductCalls
      = [(freshId, pid, qty)]
    ∧ alookup (placeOrder db inv (some k) freshId pid qty .delivered).db freshId
      = some (OrderRow.mk pid qty .confirmed none)
    ∧ alookup (placeOrder db inv (some k) freshId pid qty .delivered).db k
      = none
    ∧ alookup (placeOrder db inv (some k) freshId pid qty .delivered).inv.products
        pid = some (st - qty)
    ∧ alookup (placeOrder db inv (some k) freshId pid qty .delivered).inv.ops k
      = some opK
    ∧ alookup (placeOrder db inv (some k) freshId pid qty .delivered).inv.ops
        freshId = some ⟨pid, -(qty : Int), st, st - qty⟩ := by
  have hded : deduct inv freshId pid qty
      = (.ok (mkDeductResponse freshId ⟨pid, -(qty : Int), st, st - qty⟩),
         { products := setStock inv.products pid (st - qty)
           ops := (freshId, ⟨pid, -(qty : Int), st, st - qty⟩) :: inv.ops }) := by
    unfold deduct
    simp [hfid, hpid, hq, hfresh, hstock, Nat.not_lt.mpr hle]
  have hres : placeOrder db inv (some k) freshId pid qty .delivered
      = placeOrderFresh db inv freshId pid qty .delivered := by
    unfold placeOrder
    simp [hpid, hq, hmiss]
  rw [hres]
  unfold placeOrderFresh
  rw [hded]
  refine ⟨rfl, ?_, ?_, ?_, ?_, ?_⟩
  · simp [alookup]
  · simp only [alookup]
    rw [if_neg hneq]
    exact hmiss
  · simpa using alookup_setStock inv.products pid st (st - qty) hstock
  · simp only [alookup]
    rw [if_neg hneq]
    exact hprev
  · simp [alookup]

/-- Witness for C9: key ORD-LOST (deducted earlier but never persisted as an
order) is ignored; the fresh id ORD-NEW carries the new order and a second
deduction. -/
theorem C9_unknown_key_ignored_witness :
    (placeOrder []
        (InvState.mk [("PROD-001", 10)] [("ORD-LOST", ⟨"PROD-001", -2, 12, 10⟩)])
        (some "ORD-LOST") "ORD-NEW" "PROD-001" 2 .delivered).deductCalls
      = [("ORD-NEW", "PROD-001", 2)]
    ∧ alookup (placeOrder []
        (InvState.mk [("PROD-001", 10)] [("ORD-LOST", ⟨"PROD-001", -2, 12, 10⟩)])
        (some "ORD-LOST") "ORD-NEW" "PROD-001" 2 .delivered).inv.products
        "PROD-001" = some 8 :=
  ⟨(C9_unknown_key_ignored []
      (InvState.mk [("PROD-001", 10)] [("ORD-LOST", ⟨"PROD-001", -2, 12, 10⟩)])
      "ORD-LOST" "ORD-NEW" "PROD-001" 2 10 ⟨"PROD-001", -2, 12, 10⟩
      (by decide) (by decide) (by decide) (by decide) (by decide) (by decide)
      (by decide) (by decide) (by decide)).1,
   ((C9_unknown_key_ignored []
      (InvState.mk [("PROD-001", 10)] [("ORD-LOST", ⟨"PROD-001", -2, 12, 10⟩)])
      "ORD-LOST" "ORD-NEW" "PROD-001" 2 10 ⟨"PROD-001", -2, 12, 10⟩
      (by decide) (by decide) (by decide) (by decide) (by decide) (by decide)
      (by decide) (by decide) (by decide)).2.2.2.1).trans (by decide)⟩
